import Mathlib

/-!
Verification of the pggo Python binding (src/pggo/_binding.py) and of the
native core it calls, as described by the repository specification.

The binding is embedded shallowly: the Python functions become Lean
functions, the native shared library becomes an explicit record of
response functions, and the side effects of a call (which native entry
points were invoked, with which arguments, and which buffers were freed)
become an explicit trace of events.  Parts of the system that live only
in the native library (handle registry, wire protocol, value codec) are
modelled from the specification and are marked as such.
-/

/-- JSON values as produced by the json module: null, booleans, integers
(the payloads in scope carry no floats), strings, arrays and objects. -/
inductive Json where
  | null : Json
  | bool (b : Bool) : Json
  | num (n : Int) : Json
  | str (s : String) : Json
  | arr (xs : List Json) : Json
  | obj (fields : List (String × Json)) : Json

/-- Decimal digit characters of a natural number, most significant first,
with explicit fuel so the recursion is structural.  Fuel n + 1 always
suffices because a number has at most n + 1 decimal digits. -/
def decDigitsAux : Nat → Nat → List Char
  | 0, _ => []
  | fuel + 1, n =>
      if n < 10 then [Nat.digitChar n]
      else decDigitsAux fuel (n / 10) ++ [Nat.digitChar (n % 10)]

/-- Decimal digit characters of a natural number, most significant first. -/
def decDigits (n : Nat) : List Char := decDigitsAux (n + 1) n

/-- Decimal rendering of a natural number, as Python repr produces it. -/
def natToDec (n : Nat) : String := String.mk (decDigits n)

/-- Decimal rendering of an integer, as Python repr produces it: a minus
sign followed by the digits when negative. -/
def intToDec (i : Int) : String :=
  if i < 0 then "-" ++ natToDec i.natAbs else natToDec i.toNat

/-- Four-digit lowercase hexadecimal rendering, as used by the json
module in \uXXXX escapes. -/
def u4hex (n : Nat) : List Char :=
  [Nat.digitChar (n / 4096 % 16), Nat.digitChar (n / 256 % 16),
   Nat.digitChar (n / 16 % 16), Nat.digitChar (n % 16)]

/-- Escape of one character inside a JSON string literal, following the
json module with its default ensure_ascii behaviour: the two mandatory
escapes, the five short control escapes, \uXXXX for the remaining
characters outside the printable ASCII range (with a surrogate pair for
code points above 0xFFFF), and the character itself otherwise. -/
def escapeChar (c : Char) : List Char :=
  if c = '"' then ['\\', '"']
  else if c = '\\' then ['\\', '\\']
  else if c = '\n' then ['\\', 'n']
  else if c = '\t' then ['\\', 't']
  else if c = '\r' then ['\\', 'r']
  else if c.toNat = 8 then ['\\', 'b']
  else if c.toNat = 12 then ['\\', 'f']
  else if c.toNat < 32 ∨ c.toNat > 126 then
    if c.toNat ≤ 65535 then '\\' :: 'u' :: u4hex c.toNat
    else
      let m := c.toNat - 65536
      ('\\' :: 'u' :: u4hex (55296 + m / 1024)) ++
        ('\\' :: 'u' :: u4hex (56320 + m % 1024))
  else [c]

/-- JSON string literal for s: double quotes around the escaped
characters. -/
def jsonQuote (s : String) : String :=
  String.mk ('"' :: s.data.flatMap escapeChar ++ ['"'])

/-- Python values a caller can pass as the params argument of the binding:
None, booleans, integers, strings, lists, and a stand-in for any object
the json module cannot serialize. -/
inductive PyValue where
  | none : PyValue
  | bool (b : Bool) : PyValue
  | int (i : Int) : PyValue
  | str (s : String) : PyValue
  | list (xs : List PyValue) : PyValue
  | object : PyValue

/-- Python truthiness: None, False, 0, the empty string and the empty
list are falsy; every other value in scope is truthy. -/
def pyTruthy : PyValue → Bool
  | .none => false
  | .bool b => b
  | .int i => decide (i ≠ 0)
  | .str s => decide (s ≠ "")
  | .list xs => !xs.isEmpty
  | .object => true

/-- The Python expression a or b: a when a is truthy, b otherwise. -/
def pyOr (a b : PyValue) : PyValue := if pyTruthy a then a else b

/-- Exceptions the binding can raise: TypeError from json.dumps on a
non-serializable value, AttributeError from decoding a NULL buffer,
UnicodeDecodeError from invalid UTF-8, and JSONDecodeError from
json.loads on malformed text. -/
inductive PyExc where
  | typeError : PyExc
  | attributeError : PyExc
  | unicodeDecodeError : PyExc
  | jsonDecodeError : PyExc
  deriving DecidableEq, Repr

mutual

/-- Serialization of a Python value by json.dumps with default options:
null, true and false keywords, decimal integers, quoted escaped strings,
and bracketed comma-separated arrays; a TypeError for a value the json
module cannot serialize. -/
def pyDumps : PyValue → Except PyExc String
  | .none => .ok "null"
  | .bool true => .ok "true"
  | .bool false => .ok "false"
  | .int i => .ok (intToDec i)
  | .str s => .ok (jsonQuote s)
  | .list xs =>
      match pyDumpsList xs with
      | .error e => .error e
      | .ok parts => .ok ("[" ++ String.intercalate ", " parts ++ "]")
  | .object => .error .typeError

/-- Serialization of each element of a Python list, left to right,
stopping at the first failure as json.dumps does. -/
def pyDumpsList : List PyValue → Except PyExc (List String)
  | [] => .ok []
  | x :: xs =>
      match pyDumps x with
      | .error e => .error e
      | .ok s =>
          match pyDumpsList xs with
          | .error e => .error e
          | .ok rest => .ok (s :: rest)

end

/-- UTF-8 encoding of one character: one to four bytes depending on the
code point, per the standard encoding scheme. -/
def utf8EncodeChar (c : Char) : List Nat :=
  let n := c.toNat
  if n < 128 then [n]
  else if n < 2048 then [192 + n / 64, 128 + n % 64]
  else if n < 65536 then
    [224 + n / 4096, 128 + n / 64 % 64, 128 + n % 64]
  else
    [240 + n / 262144, 128 + n / 4096 % 64, 128 + n / 64 % 64, 128 + n % 64]

/-- UTF-8 encoding of a string, as str.encode produces it. -/
def utf8 (s : String) : List Nat := s.data.flatMap utf8EncodeChar

/-! ## The C boundary

A native entry point returns a pointer to a C string buffer.  The binding
reads it with ctypes.cast(ptr, c_char_p).value.decode() followed by
json.loads.  The buffer is modelled by what that pipeline can observe of
it: a NULL pointer (value is None, so .decode raises AttributeError),
bytes that are not valid UTF-8 (.decode raises UnicodeDecodeError), text
that is not valid JSON (json.loads raises JSONDecodeError), or text that
parses to a JSON value. -/
inductive CBuffer where
  | nullPtr : CBuffer
  | invalidUtf8 : CBuffer
  | notJson (s : String) : CBuffer
  | jsonText (v : Json) : CBuffer

/-- Result of ctypes.cast(ptr, c_char_p).value.decode() followed by
json.loads on a native buffer: the parsed JSON value on success, the
exception raised by the failing stage otherwise. -/
def decodeBuffer : CBuffer → Except PyExc Json
  | .nullPtr => .error .attributeError
  | .invalidUtf8 => .error .unicodeDecodeError
  | .notJson _ => .error .jsonDecodeError
  | .jsonText v => .ok v

/-- The ctypes argument and result types used by the binding. -/
inductive CType where
  | c_char_p : CType
  | c_ulonglong : CType
  | c_void_p : CType
  | c_none : CType
  deriving DecidableEq, Repr

/-- A ctypes function declaration: the argtypes list and the restype. -/
structure FuncDecl where
  argtypes : List CType
  restype : CType
  deriving DecidableEq, Repr

/-- The declaration _lib.ConnectJSON.argtypes / .restype. -/
def ConnectJSON_decl : FuncDecl := ⟨[.c_char_p], .c_void_p⟩

/-- The declaration _lib.CloseJSON.argtypes / .restype. -/
def CloseJSON_decl : FuncDecl := ⟨[.c_ulonglong], .c_void_p⟩

/-- The declaration _lib.FreeCString.argtypes / .restype. -/
def FreeCString_decl : FuncDecl := ⟨[.c_void_p], .c_none⟩

/-- The declaration _lib.Execute.argtypes / .restype: only two parameter
types are declared even though the function is called with three
arguments. -/
def Execute_decl : FuncDecl := ⟨[.c_ulonglong, .c_char_p], .c_void_p⟩

/-- The declaration _lib.Query.argtypes / .restype: only two parameter
types are declared even though the function is called with three
arguments. -/
def Query_decl : FuncDecl := ⟨[.c_ulonglong, .c_char_p], .c_void_p⟩

/-- One call into the native shared library, with the exact arguments
passed across the boundary (byte strings as byte lists). -/
inductive NativeCall where
  | connectCall (conninfo : List Nat) : NativeCall
  | closeCall (handle : Nat) : NativeCall
  | executeCall (handle : Nat) (sql : List Nat) (params : List Nat) : NativeCall
  | queryCall (handle : Nat) (sql : List Nat) (params : List Nat) : NativeCall
  | freeCall (buf : CBuffer) : NativeCall

/-- The native shared library as the binding sees it: a response for each
entry point, as a function of the exact arguments passed.  FreeCString
returns nothing and is recorded only in the call trace. -/
structure NativeLib where
  connectJSON : List Nat → CBuffer
  closeJSON : Nat → CBuffer
  execute : Nat → List Nat → List Nat → CBuffer
  query : Nat → List Nat → List Nat → CBuffer

/-- The helper _from_c of the binding: decode and JSON-parse the buffer
inside a try block whose finally clause calls _lib.FreeCString(ptr).
The finally clause runs on the success path and on every exception path
alike, so the trace contains the free call unconditionally, and the
decoding outcome (value or propagated exception) is returned unchanged. -/
def from_c (buf : CBuffer) : Except PyExc Json × List NativeCall :=
  (decodeBuffer buf, [.freeCall buf])

/-- The binding function connect_json: call _lib.ConnectJSON on the UTF-8
encoding of conninfo and hand the returned buffer to _from_c. -/
def connect_json (lib : NativeLib) (conninfo : String) :
    Except PyExc Json × List NativeCall :=
  let buf := lib.connectJSON (utf8 conninfo)
  let r := from_c buf
  (r.1, .connectCall (utf8 conninfo) :: r.2)

/-- The binding function close_json: call _lib.CloseJSON on the handle
and hand the returned buffer to _from_c. -/
def close_json (lib : NativeLib) (handle : Nat) :
    Except PyExc Json × List NativeCall :=
  let buf := lib.closeJSON handle
  let r := from_c buf
  (r.1, .closeCall handle :: r.2)

/-- The binding function exec_params_json: serialize (params or []) with
json.dumps — a TypeError propagates before any native call — then call
_lib.Execute with the three arguments handle, UTF-8 encoded sql and the
UTF-8 encoded serialization, and hand the returned buffer to _from_c.
The default for params is the empty string, as in the source. -/
def exec_params_json (lib : NativeLib) (handle : Nat) (sql : String)
    (params : PyValue := .str "") : Except PyExc Json × List NativeCall :=
  match pyDumps (pyOr params (.list [])) with
  | .error e => (.error e, [])
  | .ok pj =>
      let buf := lib.execute handle (utf8 sql) (utf8 pj)
      let r := from_c buf
      (r.1, .executeCall handle (utf8 sql) (utf8 pj) :: r.2)

/-- The binding function query_params_json: identical to exec_params_json
except that it calls _lib.Query. -/
def query_params_json (lib : NativeLib) (handle : Nat) (sql : String)
    (params : PyValue := .str "") : Except PyExc Json × List NativeCall :=
  match pyDumps (pyOr params (.list [])) with
  | .error e => (.error e, [])
  | .ok pj =>
      let buf := lib.query handle (utf8 sql) (utf8 pj)
      let r := from_c buf
      (r.1, .queryCall handle (utf8 sql) (utf8 pj) :: r.2)

/-! ## The native core, modelled from the spec

The handle registry, the FFI-surface operations and the query protocol
live in the native shared library, which is not part of the visible
sources; they are modelled from the specification. -/

/-- Modelled from the spec: a live Connection, identified by the endpoint
and credentials it was opened with (the remaining attributes play no role
in the registry claims). -/
structure Conn where
  conninfo : String

/-- Modelled from the spec: the handle registry, an arena-style mapping
from opaque integer handles to live Connections with a monotonically
increasing next id that starts above 0 so a handle is never 0. -/
structure Registry where
  nextId : Nat
  live : List (Nat × Conn)

/-- Modelled from the spec: the initial, empty registry. -/
def Registry.init : Registry := ⟨1, []⟩

/-- Modelled from the spec: register(conn) allocates the next monotonic
id, stores the connection under it and returns the handle. -/
def registerConn (r : Registry) (c : Conn) : Nat × Registry :=
  (r.nextId, ⟨r.nextId + 1, (r.nextId, c) :: r.live⟩)

/-- Modelled from the spec: lookup(handle) returns the connection stored
under the handle, or nothing when the handle is unknown. -/
def lookupConn (r : Registry) (h : Nat) : Option Conn :=
  (r.live.find? (fun p => p.1 == h)).map Prod.snd

/-- Modelled from the spec: remove(handle) invalidates the handle by
removing its entry from the mapping. -/
def removeConn (r : Registry) (h : Nat) : Registry :=
  ⟨r.nextId, r.live.filter (fun p => p.1 != h)⟩

/-- Modelled from the spec: the outcome of a core FFI-surface operation,
as far as the registry claims observe it — success, the structured
InvalidHandle error for an unknown or closed handle, or a completed
query exchange. -/
inductive CoreReply where
  | ok : CoreReply
  | handleFor (h : Nat) : CoreReply
  | invalidHandle : CoreReply
  | completed : CoreReply
  deriving DecidableEq, Repr

/-- Modelled from the spec: connect registers a fresh Connection and
returns its handle. -/
def coreConnect (r : Registry) (conninfo : String) : Nat × Registry :=
  registerConn r ⟨conninfo⟩

/-- Modelled from the spec: close looks the handle up — an unknown handle
yields the structured InvalidHandle error and leaves the registry
unchanged — and on success removes the entry, invalidating the handle. -/
def coreClose (r : Registry) (h : Nat) : CoreReply × Registry :=
  match lookupConn r h with
  | Option.none => (.invalidHandle, r)
  | Option.some _ => (.ok, removeConn r h)

/-- Modelled from the spec: execute looks the handle up — an unknown
handle yields the structured InvalidHandle error — and otherwise runs the
exchange on the connection. -/
def coreExec (r : Registry) (h : Nat) : CoreReply × Registry :=
  match lookupConn r h with
  | Option.none => (.invalidHandle, r)
  | Option.some _ => (.completed, r)

/-- Modelled from the spec: query behaves as execute does with respect to
handles. -/
def coreQuery (r : Registry) (h : Nat) : CoreReply × Registry :=
  match lookupConn r h with
  | Option.none => (.invalidHandle, r)
  | Option.some _ => (.completed, r)

/-- Modelled from the spec: well-formedness of the registry — every live
handle is nonzero and below the next id, and no two live entries share a
handle. -/
def RegistryWF (r : Registry) : Prop :=
  1 ≤ r.nextId ∧ (∀ p ∈ r.live, p.1 ≠ 0 ∧ p.1 < r.nextId) ∧
    (r.live.map Prod.fst).Nodup

/-! ## The query protocol, modelled from the spec -/

/-- Modelled from the spec: a typed SQL value in scope of the testable
properties — null, integer, text or boolean. -/
inductive PgValue where
  | null : PgValue
  | int (i : Int) : PgValue
  | text (s : String) : PgValue
  | bool (b : Bool) : PgValue

/-- Modelled from the spec: a data row, one cell per column; a cell is
the text-format wire value, with null transmitted as no value (wire
length -1). -/
abbrev PgRow := List (Option String)

/-- Modelled from the spec: what the server reports for one statement —
a row description (column names), the data rows, and the command tag. -/
structure QueryOutcome where
  columns : List String
  rows : List PgRow
  tag : String

/-- Modelled from the spec: the server's evaluation of a SQL statement
with bound parameters, abstracted as a function; with an empty parameter
sequence the parameterized statement is the statement itself, so both
protocol paths consult the same evaluation. -/
def ServerSem : Type := String → List PgValue → QueryOutcome

/-- Modelled from the spec: the backend messages relevant to a query
cycle. -/
inductive BackendMsg where
  | parseComplete : BackendMsg
  | bindComplete : BackendMsg
  | rowDescription (cols : List String) : BackendMsg
  | dataRow (r : PgRow) : BackendMsg
  | commandComplete (tag : String) : BackendMsg
  | readyForQuery : BackendMsg

/-- Modelled from the spec: the message sequence of the simple-query
protocol for a statement with no parameters — RowDescription, the data
rows, CommandComplete, then ReadyForQuery. -/
def simpleExchange (sem : ServerSem) (sql : String) : List BackendMsg :=
  let out := sem sql []
  .rowDescription out.columns ::
    (out.rows.map .dataRow ++ [.commandComplete out.tag, .readyForQuery])

/-- Modelled from the spec: the message sequence of the extended-query
protocol — ParseComplete and BindComplete for the Parse/Bind round trip,
then RowDescription, the data rows, CommandComplete, ReadyForQuery. -/
def extendedExchange (sem : ServerSem) (sql : String) (params : List PgValue) :
    List BackendMsg :=
  let out := sem sql params
  .parseComplete :: .bindComplete :: .rowDescription out.columns ::
    (out.rows.map .dataRow ++ [.commandComplete out.tag, .readyForQuery])

/-- Modelled from the spec: the executor's row accumulation — collect
every DataRow payload in order, ignore the other messages, stop at
ReadyForQuery. -/
def collectRows : List BackendMsg → List PgRow
  | [] => []
  | .readyForQuery :: _ => []
  | .dataRow r :: ms => r :: collectRows ms
  | _ :: ms => collectRows ms

/-! ## The value codec, modelled from the spec -/

/-- Modelled from the spec: the type OID under which each parameter value
is sent — bool 16, int8 20, text 25; a null parameter is typed as text. -/
def oidOf : PgValue → Nat
  | .null => 25
  | .int _ => 20
  | .text _ => 25
  | .bool _ => 16

/-- Modelled from the spec: text-format parameter encoding — null is sent
as wire length -1 (no value), integers as their decimal text, text as
itself, booleans as t or f. -/
def encodeParam : PgValue → Option String
  | .null => Option.none
  | .int i => Option.some (intToDec i)
  | .text s => Option.some s
  | .bool b => Option.some (if b then "t" else "f")

/-- Digits of a decimal text value folded into a number, as the result
decoder reads an integer column. -/
def parseNatAux (acc : Nat) (cs : List Char) : Nat :=
  cs.foldl (fun a c => a * 10 + (c.toNat - 48)) acc

/-- Modelled from the spec: decoding an integer column's text value — an
optional leading minus sign followed by decimal digits. -/
def parseDec (s : String) : Int :=
  if s.data.head? = Option.some '-' then -(parseNatAux 0 s.data.tail : Int)
  else (parseNatAux 0 s.data : Int)

/-- Modelled from the spec: decoding one result cell according to the
column's type OID — an absent value is null, OID 16 decodes t as true,
OID 20 parses decimal text, and any other OID falls back to raw text. -/
def decodeColumn (oid : Nat) : Option String → PgValue
  | Option.none => .null
  | Option.some s =>
      if oid = 16 then .bool (s = "t")
      else if oid = 20 then .int (parseDec s)
      else .text s

/-- Modelled from the spec: inserting a value via execute with a
parameter sequence stores the text-format encoding of the bound parameter
in a cell of the parameter's declared type. -/
def executeInsert (v : PgValue) : Nat × Option String :=
  (oidOf v, encodeParam v)

/-- Modelled from the spec: retrieving the stored cell via query decodes
it according to the column's type OID. -/
def queryDecode (cell : Nat × Option String) : PgValue :=
  decodeColumn cell.1 cell.2

/-! ## Lemmas about the decimal codec -/

theorem digitChar_toNat {d : Nat} (hd : d < 10) :
    (Nat.digitChar d).toNat = 48 + d := by
  interval_cases d <;> rfl

theorem digitChar_ne_minus {d : Nat} (hd : d < 10) :
    Nat.digitChar d ≠ '-' := by
  interval_cases d <;> decide

theorem parseNatAux_append (acc : Nat) (l : List Char) (c : Char) :
    parseNatAux acc (l ++ [c]) = (parseNatAux acc l) * 10 + (c.toNat - 48) := by
  simp [parseNatAux, List.foldl_append]

theorem parseNatAux_decDigitsAux (fuel : Nat) :
    ∀ n acc, n < fuel →
      parseNatAux acc (decDigitsAux fuel n) =
        acc * 10 ^ (decDigitsAux fuel n).length + n := by
  induction fuel with
  | zero => intro n acc h; omega
  | succ fuel ih =>
      intro n acc h
      by_cases h10 : n < 10
      · simp only [decDigitsAux, if_pos h10, parseNatAux, List.foldl_cons,
          List.foldl_nil, List.length_singleton, pow_one]
        rw [digitChar_toNat h10]
        omega
      · have hdiv : n / 10 < fuel := by omega
        simp only [decDigitsAux, if_neg h10]
        rw [parseNatAux_append, ih (n / 10) acc hdiv,
          digitChar_toNat (Nat.mod_lt n (by omega))]
        rw [List.length_append, List.length_singleton, pow_succ, ← mul_assoc]
        have hmod : n % 10 < 10 := Nat.mod_lt n (by omega)
        generalize acc * 10 ^ (decDigitsAux fuel (n / 10)).length = Q
        omega

theorem parseNatAux_decDigits (n : Nat) : parseNatAux 0 (decDigits n) = n := by
  have := parseNatAux_decDigitsAux (n + 1) n 0 (Nat.lt_succ_self n)
  simpa [decDigits] using this

theorem decDigitsAux_head_ne_minus (fuel : Nat) :
    ∀ n, n < fuel → (decDigitsAux fuel n).head? ≠ Option.some '-' := by
  induction fuel with
  | zero => intro n h; omega
  | succ fuel ih =>
      intro n h
      by_cases h10 : n < 10
      · simp only [decDigitsAux, if_pos h10, List.head?_cons]
        intro hc
        exact digitChar_ne_minus h10 (Option.some.inj hc)
      · have hdiv : n / 10 < fuel := by omega
        simp only [decDigitsAux, if_neg h10]
        cases hl : decDigitsAux fuel (n / 10) with
        | nil =>
            simp only [List.nil_append, List.head?_cons]
            intro hc
            exact digitChar_ne_minus (Nat.mod_lt n (by omega)) (Option.some.inj hc)
        | cons a t =>
            simp only [List.cons_append, List.head?_cons]
            intro hc
            have := ih (n / 10) hdiv
            rw [hl] at this
            simp only [List.head?_cons] at this
            exact this hc

theorem decDigits_head_ne_minus (n : Nat) :
    (decDigits n).head? ≠ Option.some '-' :=
  decDigitsAux_head_ne_minus (n + 1) n (Nat.lt_succ_self n)

theorem parseDec_intToDec (i : Int) : parseDec (intToDec i) = i := by
  by_cases hneg : i < 0
  · have hdata : (intToDec i).data = '-' :: decDigits i.natAbs := by
      simp only [intToDec, if_pos hneg, natToDec]
      rfl
    simp only [parseDec, hdata, List.head?_cons, List.tail_cons]
    simp only [if_true, parseNatAux_decDigits]
    omega
  · have hdata : (intToDec i).data = decDigits i.toNat := by
      simp only [intToDec, if_neg hneg, natToDec]
    rw [parseDec, hdata, if_neg (decDigits_head_ne_minus i.toNat),
      parseNatAux_decDigits]
    omega

/-! ## Helper libraries and payload shapes -/

/-- A well-behaved native library used to instantiate the theorems: every
entry point answers with a valid JSON payload of the documented shape. -/
def demoLib : NativeLib where
  connectJSON := fun _ => .jsonText (.obj [("handle", .num 1)])
  closeJSON := fun _ => .jsonText (.obj [("ok", .bool true)])
  execute := fun _ _ _ =>
    .jsonText (.obj [("command_tag", .str "INSERT 0 1"), ("rows_affected", .num 1)])
  query := fun _ _ _ =>
    .jsonText (.obj [("columns", .arr [.str "v"]),
      ("rows", .arr [.arr [.str "a"]]), ("command_tag", .str "SELECT 1")])

/-- A misbehaving native library whose buffers hold text that is not
JSON. -/
def badLib : NativeLib where
  connectJSON := fun _ => .notJson "pong"
  closeJSON := fun _ => .notJson "pong"
  execute := fun _ _ _ => .notJson "pong"
  query := fun _ _ _ => .notJson "pong"

/-- A native library whose payloads are bare non-object JSON values, used
to show the binding performs no shape validation. -/
def plainLib : NativeLib where
  connectJSON := fun _ => .jsonText (.num 7)
  closeJSON := fun _ => .jsonText (.arr [.null])
  execute := fun _ _ _ => .jsonText (.str "x")
  query := fun _ _ _ => .jsonText (.bool false)

/-- The payload shape of ConnectJSON per the boundary contract: an object
with a uint64 handle, or an object with an error string. -/
def ConnectPayload (v : Json) : Prop :=
  (∃ hh : Nat, v = .obj [("handle", .num (hh : Int))]) ∨
    ∃ e : String, v = .obj [("error", .str e)]

/-- The payload shape of CloseJSON per the boundary contract: the object
with ok set to true, or an object with an error string. -/
def ClosePayload (v : Json) : Prop :=
  v = .obj [("ok", .bool true)] ∨ ∃ e : String, v = .obj [("error", .str e)]

/-- Modelled from the spec: the native ConnectJSON always hands back a
buffer holding a valid UTF-8 JSON payload of the documented shape. -/
def NativeConnectSpec (lib : NativeLib) : Prop :=
  ∀ bs, ∃ v, lib.connectJSON bs = .jsonText v ∧ ConnectPayload v

/-- Modelled from the spec: the native CloseJSON always hands back a
buffer holding a valid UTF-8 JSON payload of the documented shape. -/
def NativeCloseSpec (lib : NativeLib) : Prop :=
  ∀ h, ∃ v, lib.closeJSON h = .jsonText v ∧ ClosePayload v

/-- Modelled from the spec: every entry point of the native library hands
back a buffer holding valid UTF-8 JSON (of whatever shape). -/
def NativeAlwaysJson (lib : NativeLib) : Prop :=
  (∀ bs, ∃ v, lib.connectJSON bs = .jsonText v)
  ∧ (∀ h, ∃ v, lib.closeJSON h = .jsonText v)
  ∧ (∀ h s p, ∃ v, lib.execute h s p = .jsonText v)
  ∧ (∀ h s p, ∃ v, lib.query h s p = .jsonText v)

/-! ## Registry and protocol lemmas -/

theorem lookupConn_registerConn (r : Registry) (c : Conn) :
    lookupConn (registerConn r c).2 (registerConn r c).1 = Option.some c := by
  simp [lookupConn, registerConn, List.find?]

theorem lookupConn_removeConn (r : Registry) (h : Nat) :
    lookupConn (removeConn r h) h = Option.none := by
  have hf : (List.filter (fun p => p.1 != h) r.live).find? (fun p => p.1 == h)
      = Option.none := by
    rw [List.find?_eq_none]
    intro p hp
    have hne := (List.mem_filter.mp hp).2
    simp only [bne_iff_ne, ne_eq] at hne
    simp [hne]
  simp [lookupConn, removeConn, hf]

theorem collectRows_dataBlock (rows : List PgRow) (tag : String) :
    collectRows (rows.map .dataRow ++
      [.commandComplete tag, .readyForQuery]) = rows := by
  induction rows with
  | nil => rfl
  | cons r rs ih => simpa [collectRows] using ih

/-! ## Claim theorems -/

/-- C1: for every handle, sql string and non-empty parameter list that
json.dumps accepts, exec_params_json invokes the native Execute entry
point with exactly the three arguments handle, UTF-8 encoded sql and
UTF-8 encoded JSON serialization of params, and query_params_json does
the same with the native Query entry point, even though the ctypes
argtypes declarations for Execute and Query list only two parameters. -/
theorem C1_exec_query_pass_three_args (lib : NativeLib) (h : Nat)
    (sql : String) (ps : List PyValue) (pj : String)
    (hne : ps ≠ []) (hd : pyDumps (.list ps) = .ok pj) :
    (exec_params_json lib h sql (.list ps)).2 =
      [.executeCall h (utf8 sql) (utf8 pj),
       .freeCall (lib.execute h (utf8 sql) (utf8 pj))]
    ∧ (query_params_json lib h sql (.list ps)).2 =
      [.queryCall h (utf8 sql) (utf8 pj),
       .freeCall (lib.query h (utf8 sql) (utf8 pj))]
    ∧ Execute_decl.argtypes.length = 2
    ∧ Query_decl.argtypes.length = 2 := by
  have htr : pyOr (.list ps) (.list []) = .list ps := by
    cases ps with
    | nil => exact absurd rfl hne
    | cons a l => simp [pyOr, pyTruthy]
  refine ⟨?_, ?_, rfl, rfl⟩ <;>
    simp [exec_params_json, query_params_json, htr, hd, from_c]

/-- C1 witness: the theorem applied at a concrete library, handle, sql
and the one-element parameter list holding the integer 5. -/
theorem C1_witness :
    (exec_params_json demoLib 1 "select 1" (.list [.int 5])).2 =
      [.executeCall 1 (utf8 "select 1") (utf8 "[5]"),
       .freeCall (demoLib.execute 1 (utf8 "select 1") (utf8 "[5]"))]
    ∧ (query_params_json demoLib 1 "select 1" (.list [.int 5])).2 =
      [.queryCall 1 (utf8 "select 1") (utf8 "[5]"),
       .freeCall (demoLib.query 1 (utf8 "select 1") (utf8 "[5]"))]
    ∧ Execute_decl.argtypes.length = 2
    ∧ Query_decl.argtypes.length = 2 :=
  C1_exec_query_pass_three_args demoLib 1 "select 1" [.int 5] "[5]"
    (by simp) rfl

/-- C2: in every boundary operation the buffer returned by the native
call is freed via FreeCString exactly once — each call trace holds
exactly one free event, naming exactly the returned buffer — and the
finally clause of _from_c emits that free event for every buffer,
including the ones whose decoding or JSON parsing raises. -/
theorem C2_free_exactly_once (lib : NativeLib) (conninfo : String) (h : Nat)
    (sql : String) (p : PyValue) (pj : String)
    (hd : pyDumps (pyOr p (.list [])) = .ok pj) :
    (∀ buf, (from_c buf).2 = [.freeCall buf])
    ∧ (connect_json lib conninfo).2 =
      [.connectCall (utf8 conninfo), .freeCall (lib.connectJSON (utf8 conninfo))]
    ∧ (close_json lib h).2 = [.closeCall h, .freeCall (lib.closeJSON h)]
    ∧ (exec_params_json lib h sql p).2 =
      [.executeCall h (utf8 sql) (utf8 pj),
       .freeCall (lib.execute h (utf8 sql) (utf8 pj))]
    ∧ (query_params_json lib h sql p).2 =
      [.queryCall h (utf8 sql) (utf8 pj),
       .freeCall (lib.query h (utf8 sql) (utf8 pj))] := by
  refine ⟨fun buf => rfl, rfl, rfl, ?_, ?_⟩ <;>
    simp [exec_params_json, query_params_json, hd, from_c]

/-- C2 witness: the theorem applied at a concrete library and inputs,
with the parameter list holding the integer 5. -/
theorem C2_witness :
    (∀ buf, (from_c buf).2 = [.freeCall buf])
    ∧ (connect_json demoLib "db").2 =
      [.connectCall (utf8 "db"), .freeCall (demoLib.connectJSON (utf8 "db"))]
    ∧ (close_json demoLib 1).2 = [.closeCall 1, .freeCall (demoLib.closeJSON 1)]
    ∧ (exec_params_json demoLib 1 "select 1" (.list [.int 5])).2 =
      [.executeCall 1 (utf8 "select 1") (utf8 "[5]"),
       .freeCall (demoLib.execute 1 (utf8 "select 1") (utf8 "[5]"))]
    ∧ (query_params_json demoLib 1 "select 1" (.list [.int 5])).2 =
      [.queryCall 1 (utf8 "select 1") (utf8 "[5]"),
       .freeCall (demoLib.query 1 (utf8 "select 1") (utf8 "[5]"))] :=
  C2_free_exactly_once demoLib "db" 1 "select 1" (.list [.int 5]) "[5]" rfl

/-- C9: when the params argument of exec_params_json or query_params_json
is any falsy value — and in particular when it is omitted, since the
declared default is the falsy empty string — the native library receives
the UTF-8 encoding of the empty JSON array. -/
theorem C9_falsy_params_normalized (lib : NativeLib) (h : Nat) (sql : String)
    (p : PyValue) (hf : pyTruthy p = false) :
    (exec_params_json lib h sql p).2 =
      [.executeCall h (utf8 sql) (utf8 "[]"),
       .freeCall (lib.execute h (utf8 sql) (utf8 "[]"))]
    ∧ (query_params_json lib h sql p).2 =
      [.queryCall h (utf8 sql) (utf8 "[]"),
       .freeCall (lib.query h (utf8 sql) (utf8 "[]"))]
    ∧ pyTruthy (.str "") = false
    ∧ exec_params_json lib h sql = exec_params_json lib h sql (.str "")
    ∧ query_params_json lib h sql = query_params_json lib h sql (.str "") := by
  have htr : pyOr p (.list []) = .list [] := by simp [pyOr, hf]
  have hd : pyDumps (.list []) = .ok "[]" := rfl
  refine ⟨?_, ?_, rfl, rfl, rfl⟩ <;>
    simp [exec_params_json, query_params_json, htr, hd, from_c]

/-- C9 witness: the theorem applied at a concrete library and inputs with
params equal to None. -/
theorem C9_witness :
    (exec_params_json demoLib 1 "select 1" .none).2 =
      [.executeCall 1 (utf8 "select 1") (utf8 "[]"),
       .freeCall (demoLib.execute 1 (utf8 "select 1") (utf8 "[]"))]
    ∧ (query_params_json demoLib 1 "select 1" .none).2 =
      [.queryCall 1 (utf8 "select 1") (utf8 "[]"),
       .freeCall (demoLib.query 1 (utf8 "select 1") (utf8 "[]"))]
    ∧ pyTruthy (.str "") = false
    ∧ exec_params_json demoLib 1 "select 1" =
      exec_params_json demoLib 1 "select 1" (.str "")
    ∧ query_params_json demoLib 1 "select 1" =
      query_params_json demoLib 1 "select 1" (.str "") :=
  C9_falsy_params_normalized demoLib 1 "select 1" .none rfl

/-- C3 counterexample: the claim that no exception ever crosses the
boundary to the caller fails on the code — when the native buffer does
not hold valid JSON, _from_c lets json.loads raise, and connect_json
propagates the JSONDecodeError instead of returning an error value. -/
theorem C3_counterexample :
    (connect_json badLib "postgres:").1 = .error .jsonDecodeError := rfl

/-- C3 amended: whenever every native entry point hands back a buffer
holding valid UTF-8 JSON — as the specified core guarantees — and the
params argument serializes, each of the four boundary operations returns
a parsed payload as a value and no exception crosses to the caller; in
particular a failure the native side reports as a JSON error payload
comes back as a returned value, not a raised exception. -/
theorem C3_amended_no_exception_for_json_buffers (lib : NativeLib)
    (conninfo : String) (h : Nat) (sql : String) (p : PyValue) (pj : String)
    (hjson : NativeAlwaysJson lib)
    (hd : pyDumps (pyOr p (.list [])) = .ok pj) :
    (∃ w, (connect_json lib conninfo).1 = .ok w)
    ∧ (∃ w, (close_json lib h).1 = .ok w)
    ∧ (∃ w, (exec_params_json lib h sql p).1 = .ok w)
    ∧ (∃ w, (query_params_json lib h sql p).1 = .ok w) := by
  obtain ⟨hc, hcl, he, hq⟩ := hjson
  obtain ⟨v1, hv1⟩ := hc (utf8 conninfo)
  obtain ⟨v2, hv2⟩ := hcl h
  obtain ⟨v3, hv3⟩ := he h (utf8 sql) (utf8 pj)
  obtain ⟨v4, hv4⟩ := hq h (utf8 sql) (utf8 pj)
  refine ⟨⟨v1, ?_⟩, ⟨v2, ?_⟩, ⟨v3, ?_⟩, ⟨v4, ?_⟩⟩ <;>
    simp [connect_json, close_json, exec_params_json, query_params_json,
      hd, hv1, hv2, hv3, hv4, from_c, decodeBuffer]

/-- C3 witness: the amended theorem applied at a concrete well-behaved
library and concrete inputs. -/
theorem C3_witness :
    (∃ w, (connect_json demoLib "db").1 = .ok w)
    ∧ (∃ w, (close_json demoLib 1).1 = .ok w)
    ∧ (∃ w, (exec_params_json demoLib 1 "select 1" (.list [.int 5])).1 = .ok w)
    ∧ (∃ w, (query_params_json demoLib 1 "select 1" (.list [.int 5])).1 = .ok w) :=
  C3_amended_no_exception_for_json_buffers demoLib "db" 1 "select 1"
    (.list [.int 5]) "[5]"
    ⟨fun _ => ⟨_, rfl⟩, fun _ => ⟨_, rfl⟩, fun _ _ _ => ⟨_, rfl⟩,
     fun _ _ _ => ⟨_, rfl⟩⟩ rfl

/-- C4: connect_json returns exactly the UTF-8 decoded, JSON parsed
buffer produced by the native ConnectJSON applied to the UTF-8 encoding
of conninfo, and under the specified native payload shapes that value is
an object with a uint64 handle or an object with an error string;
close_json analogously returns the decoded result of CloseJSON on the
handle, either the ok object or an error object. -/
theorem C4_connect_close_decode (lib : NativeLib) (conninfo : String)
    (h : Nat) (hcs : NativeConnectSpec lib) (hcl : NativeCloseSpec lib) :
    (∃ v, (connect_json lib conninfo).1 = .ok v
      ∧ decodeBuffer (lib.connectJSON (utf8 conninfo)) = .ok v
      ∧ ConnectPayload v)
    ∧ (∃ v, (close_json lib h).1 = .ok v
      ∧ decodeBuffer (lib.closeJSON h) = .ok v
      ∧ ClosePayload v) := by
  obtain ⟨v1, hv1, hs1⟩ := hcs (utf8 conninfo)
  obtain ⟨v2, hv2, hs2⟩ := hcl h
  refine ⟨⟨v1, ?_, ?_, hs1⟩, ⟨v2, ?_, ?_, hs2⟩⟩ <;>
    simp [connect_json, close_json, hv1, hv2, from_c, decodeBuffer]

/-- C4 witness: the theorem applied at a concrete library satisfying the
payload-shape contract. -/
theorem C4_witness :
    (∃ v, (connect_json demoLib "db").1 = .ok v
      ∧ decodeBuffer (demoLib.connectJSON (utf8 "db")) = .ok v
      ∧ ConnectPayload v)
    ∧ (∃ v, (close_json demoLib 1).1 = .ok v
      ∧ decodeBuffer (demoLib.closeJSON 1) = .ok v
      ∧ ClosePayload v) :=
  C4_connect_close_decode demoLib "db" 1
    (fun _ => ⟨_, rfl, Or.inl ⟨1, rfl⟩⟩)
    (fun _ => ⟨_, rfl, Or.inl rfl⟩)

/-- C10: the binding performs no validation of the payload shape — for
every native result whose buffer holds valid UTF-8 JSON, each boundary
operation returns the parsed JSON value unchanged, whatever its type,
without checking for handle, ok, error or result fields. -/
theorem C10_no_payload_validation (lib : NativeLib) (conninfo : String)
    (h : Nat) (sql : String) (p : PyValue) (pj : String)
    (v1 v2 v3 v4 : Json)
    (h1 : lib.connectJSON (utf8 conninfo) = .jsonText v1)
    (h2 : lib.closeJSON h = .jsonText v2)
    (hd : pyDumps (pyOr p (.list [])) = .ok pj)
    (h3 : lib.execute h (utf8 sql) (utf8 pj) = .jsonText v3)
    (h4 : lib.query h (utf8 sql) (utf8 pj) = .jsonText v4) :
    (connect_json lib conninfo).1 = .ok v1
    ∧ (close_json lib h).1 = .ok v2
    ∧ (exec_params_json lib h sql p).1 = .ok v3
    ∧ (query_params_json lib h sql p).1 = .ok v4 := by
  refine ⟨?_, ?_, ?_, ?_⟩ <;>
    simp [connect_json, close_json, exec_params_json, query_params_json,
      hd, h1, h2, h3, h4, from_c, decodeBuffer]

/-- C10 witness: the theorem applied at a library answering with bare
non-object JSON values — a number, an array, a string and a boolean —
each of which is returned unchanged. -/
theorem C10_witness :
    (connect_json plainLib "db").1 = .ok (.num 7)
    ∧ (close_json plainLib 2).1 = .ok (.arr [.null])
    ∧ (exec_params_json plainLib 2 "select 1" .none).1 = .ok (.str "x")
    ∧ (query_params_json plainLib 2 "select 1" .none).1 = .ok (.bool false) :=
  C10_no_payload_validation plainLib "db" 2 "select 1" .none "[]"
    (.num 7) (.arr [.null]) (.str "x") (.bool false) rfl rfl rfl rfl rfl

/-- C5: after a successful connect followed immediately by close, the
handle is invalid — a second close returns the structured InvalidHandle
error rather than crashing, and execute and query on the closed handle
return InvalidHandle as well (modelled from the spec, since the handle
registry lives in the native core). -/
theorem C5_close_idempotent_invalid_handle (r : Registry) (conninfo : String) :
    (coreClose (coreConnect r conninfo).2 (coreConnect r conninfo).1).1 = .ok
    ∧ (coreClose
        (coreClose (coreConnect r conninfo).2 (coreConnect r conninfo).1).2
        (coreConnect r conninfo).1).1 = .invalidHandle
    ∧ (coreExec
        (coreClose (coreConnect r conninfo).2 (coreConnect r conninfo).1).2
        (coreConnect r conninfo).1).1 = .invalidHandle
    ∧ (coreQuery
        (coreClose (coreConnect r conninfo).2 (coreConnect r conninfo).1).2
        (coreConnect r conninfo).1).1 = .invalidHandle := by
  have h1 : coreClose (coreConnect r conninfo).2 (coreConnect r conninfo).1 =
      (.ok, removeConn (coreConnect r conninfo).2 (coreConnect r conninfo).1) := by
    simp [coreClose, coreConnect, lookupConn_registerConn]
  refine ⟨by simp [h1], ?_, ?_, ?_⟩ <;>
    rw [h1] <;>
    simp [coreClose, coreExec, coreQuery, lookupConn_removeConn]

/-- C6: for every server semantics and SQL text, executing with an empty
parameter sequence through the simple-query message exchange and through
the extended-query Parse/Bind/Execute/Sync exchange on the equivalent
parameterized statement yields identical row contents (modelled from the
spec, since the protocol client lives in the native core). -/
theorem C6_protocol_path_equivalence (sem : ServerSem) (sql : String) :
    collectRows (simpleExchange sem sql) =
      collectRows (extendedExchange sem sql []) := by
  simp [simpleExchange, extendedExchange, collectRows, collectRows_dataBlock]

/-- C7: for every value of type integer, text, boolean or null, the
text-format parameter encoding used on insert followed by the OID-driven
result decoding used on retrieval yields the original value (modelled
from the spec, since the value codec lives in the native core). -/
theorem C7_param_roundtrip (v : PgValue) : queryDecode (executeInsert v) = v := by
  cases v with
  | null => rfl
  | int i =>
      simp [queryDecode, executeInsert, oidOf, encodeParam, decodeColumn,
        parseDec_intToDec]
  | text s => rfl
  | bool b => cases b <;> rfl

/-- C8: on a well-formed registry, register produces a nonzero handle
that is not the handle of any live Connection, register and remove
preserve well-formedness (every live handle nonzero, below the next id,
and no two live entries sharing a handle, so a handle identifies exactly
one live Connection), a removed handle no longer resolves, and the
initial registry is well-formed (modelled from the spec, since the
registry lives in the native core). -/
theorem C8_registry_handle_uniqueness (r : Registry) (c : Conn) (h : Nat)
    (hwf : RegistryWF r) :
    RegistryWF Registry.init
    ∧ (registerConn r c).1 ≠ 0
    ∧ (∀ p ∈ r.live, p.1 ≠ (registerConn r c).1)
    ∧ RegistryWF (registerConn r c).2
    ∧ RegistryWF (removeConn r h)
    ∧ lookupConn (removeConn r h) h = Option.none
    ∧ (∀ p q, p ∈ r.live → q ∈ r.live → p.1 = q.1 → p = q) := by
  obtain ⟨hone, hbound, hnodup⟩ := hwf
  refine ⟨?_, ?_, ?_, ?_, ?_, lookupConn_removeConn r h, ?_⟩
  · exact ⟨le_refl 1, by simp [Registry.init], by simp [Registry.init]⟩
  · simp only [registerConn]
    omega
  · intro p hp
    have := (hbound p hp).2
    simp only [registerConn]
    omega
  · refine ⟨by simp only [registerConn]; omega, ?_, ?_⟩
    · intro p hp
      simp only [registerConn, List.mem_cons] at hp
      rcases hp with hp | hp
      · subst hp
        simp only [registerConn]
        omega
      · have := hbound p hp
        simp only [registerConn]
        omega
    · simp only [registerConn, List.map_cons, List.nodup_cons]
      refine ⟨?_, hnodup⟩
      intro hmem
      obtain ⟨p, hp, hfst⟩ := List.mem_map.mp hmem
      have := (hbound p hp).2
      omega
  · refine ⟨hone, ?_, ?_⟩
    · intro p hp
      exact hbound p (List.mem_filter.mp hp).1
    · exact ((List.filter_sublist r.live).map Prod.fst).nodup hnodup
  · intro p q hp hq hpq
    exact List.inj_on_of_nodup_map hnodup hp hq hpq

/-- C8 witness: the theorem applied at the initial registry, a concrete
connection and a concrete handle. -/
theorem C8_witness :
    RegistryWF Registry.init
    ∧ (registerConn Registry.init ⟨"db"⟩).1 ≠ 0
    ∧ (∀ p ∈ Registry.init.live, p.1 ≠ (registerConn Registry.init ⟨"db"⟩).1)
    ∧ RegistryWF (registerConn Registry.init ⟨"db"⟩).2
    ∧ RegistryWF (removeConn Registry.init 1)
    ∧ lookupConn (removeConn Registry.init 1) 1 = Option.none
    ∧ (∀ p q, p ∈ Registry.init.live → q ∈ Registry.init.live →
        p.1 = q.1 → p = q) :=
  C8_registry_handle_uniqueness Registry.init ⟨"db"⟩ 1
    ⟨le_refl 1, by simp [Registry.init], by simp [Registry.init]⟩
